import Mathlib

/-!
Shallow embedding of `src/TASK4.py` (exploratory data analysis of a traffic
accident dataset) and proofs about its cleaning pipeline and plot sequence.

A dataframe is a row count together with named columns; a cell is missing
(`na`, pandas NaN/NaT), a rational number (pandas numeric values), a string
(pandas object dtype), or a datetime (seconds since an epoch).  The script is
a single linear pass: load at most 100000 rows, drop columns with too many
missing values, coerce three columns to numeric, then execute a fixed list of
plotting steps, two of which index columns unconditionally.  `run` returns the
list of plot events emitted before the first uncaught error, together with the
final dataframe or that error.
-/

namespace Task4

/-- A single dataframe cell: missing (NaN/NaT), numeric, string, or datetime
(`dt t` is a timestamp measured in seconds). -/
inductive Cell where
  | na : Cell
  | num : ℚ → Cell
  | str : String → Cell
  | dt : ℕ → Cell
deriving Repr, DecidableEq

/-- Is the cell a missing value? -/
def Cell.isNA : Cell → Bool
  | .na => true
  | _ => false

/-- A named column. -/
structure Col where
  name : String
  cells : List Cell
deriving Repr, DecidableEq

/-- A dataframe: a row count and a list of named columns.  The row count is
kept separately because pandas' `len(df)` survives dropping all columns. -/
structure DataFrame where
  nrows : ℕ
  cols : List Col
deriving Repr, DecidableEq

/-- Well-formedness: every column has exactly `nrows` cells. -/
def DataFrame.WF (df : DataFrame) : Prop :=
  ∀ c ∈ df.cols, c.cells.length = df.nrows

instance (df : DataFrame) : Decidable df.WF :=
  inferInstanceAs (Decidable (∀ c ∈ df.cols, c.cells.length = df.nrows))

/-- Find the (first) column with the given name. -/
def findCol : List Col → String → Option Col
  | [], _ => none
  | c :: cs, n => if c.name = n then some c else findCol cs n

/-- Lookup `df[name]`. -/
def DataFrame.getCol (df : DataFrame) (n : String) : Option Col :=
  findCol df.cols n

/-- Test `name in df.columns`. -/
def DataFrame.hasCol (df : DataFrame) (n : String) : Bool :=
  (df.getCol n).isSome

/-- Replace the first column named `n` by the given cells, or append a new
column of that name — the semantics of the pandas assignment `df[n] = cells`. -/
def setColList : List Col → String → List Cell → List Col
  | [], n, cells => [⟨n, cells⟩]
  | c :: cs, n, cells =>
      if c.name = n then ⟨n, cells⟩ :: cs else c :: setColList cs n cells

/-- Assignment `df[n] = cells`. -/
def DataFrame.setCol (df : DataFrame) (n : String) (cells : List Cell) : DataFrame :=
  ⟨df.nrows, setColList df.cols n cells⟩

/-- Column drop `df.drop(names, axis=1, errors='ignore')`. -/
def DataFrame.dropCols (df : DataFrame) (names : List String) : DataFrame :=
  ⟨df.nrows, df.cols.filter (fun c => decide (c.name ∉ names))⟩

/-- Load `pd.read_csv(path, nrows=n)`: the first `n` rows of the file (modelled as
the already-parsed full dataframe of the CSV). -/
def readCsv (file : DataFrame) (n : ℕ) : DataFrame :=
  ⟨min file.nrows n, file.cols.map (fun c => ⟨c.name, c.cells.take n⟩)⟩

/-- Number of non-missing cells of a column (pandas `count()`). -/
def nonNACount (cs : List Cell) : ℕ :=
  (cs.filter (fun x => !x.isNA)).length

/-- Number of missing cells of a column. -/
def naCount (cs : List Cell) : ℕ :=
  (cs.filter Cell.isNA).length

/-- Line 23: `df.dropna(thresh=len(df) * (1 - 0.3), axis=1)`.  A column is
kept iff its non-missing count is at least `0.7 * len(df)`, i.e. iff
`10 * count ≥ 7 * len(df)`.  (The Python threshold is the float
`len(df) * (1 - 0.3)`; for every integer count and every `len(df)` up to the
loaded bound the float comparison `count >= len(df) * (1 - 0.3)` coincides
with this exact rational comparison.) -/
def dropnaCols (df : DataFrame) : DataFrame :=
  ⟨df.nrows, df.cols.filter (fun c => decide (7 * df.nrows ≤ 10 * nonNACount c.cells))⟩

/-- Does the cell belong to a numeric-dtype column (numeric value or NaN)? -/
def Cell.isNumLike : Cell → Bool
  | .na => true
  | .num _ => true
  | _ => false

/-- A column has numeric dtype iff all its cells are numeric or missing
(pandas `select_dtypes(include=np.number)` keeps exactly these). -/
def Col.isNumericDtype (c : Col) : Bool :=
  c.cells.all Cell.isNumLike

/-- Line 28: `df_num = df.select_dtypes(include=np.number)`. -/
def numericCols (df : DataFrame) : List Col :=
  df.cols.filter Col.isNumericDtype

/-- The column names of `df_num`. -/
def numericColNames (df : DataFrame) : List String :=
  (numericCols df).map Col.name

/-- Read a nonempty all-digit character list as a natural number. -/
def parseDigits (cs : List Char) : Option ℕ :=
  if cs.isEmpty || !cs.all Char.isDigit then none
  else some (cs.foldl (fun n c => 10 * n + (c.toNat - 48)) 0)

/-- Modelled from the spec: the number syntax accepted by `pd.to_numeric`
(the pandas parser itself is library code).  An unsigned decimal is digits,
optionally followed by a point and more digits. -/
def parseUnsigned (cs : List Char) : Option ℚ :=
  match cs.splitOn '.' with
  | [ip] => (parseDigits ip).map (fun n => (n : ℚ))
  | [ip, fp] =>
      match parseDigits ip, parseDigits fp with
      | some i, some f => some ((i : ℚ) + (f : ℚ) / (10 : ℚ) ^ fp.length)
      | _, _ => none
  | _ => none

/-- A decimal number with an optional sign; `none` means not parseable. -/
def parseRat (s : String) : Option ℚ :=
  match s.data with
  | '-' :: rest => (parseUnsigned rest).map (fun q => -q)
  | '+' :: rest => parseUnsigned rest
  | cs => parseUnsigned cs

/-- Coercion `pd.to_numeric(·, errors='coerce')` on a single cell: numbers pass
through, parseable strings become their number, everything malformed becomes
NaN; nothing ever raises. -/
def toNumericCell : Cell → Cell
  | .na => .na
  | .num q => .num q
  | .str s => match parseRat s with | some q => .num q | none => .na
  | .dt t => .num (t : ℚ)

/-- Uncaught Python exceptions the script can raise. -/
inductive Err where
  | keyError : String → Err
  | valueError : Err
deriving Repr, DecidableEq

instance : DecidableEq (Except Err DataFrame) := fun x y =>
  match x, y with
  | .ok a, .ok b =>
      if h : a = b then .isTrue (by rw [h]) else .isFalse (by simp [h])
  | .error a, .error b =>
      if h : a = b then .isTrue (by rw [h]) else .isFalse (by simp [h])
  | .ok _, .error _ => .isFalse (by simp)
  | .error _, .ok _ => .isFalse (by simp)

/-- Lines 35-37, one column:
`df[n] = pd.to_numeric(df[n], errors='coerce')`.  Reading `df[n]` raises
`KeyError` when the column is absent; otherwise every cell is coerced. -/
def coerceCol (df : DataFrame) (n : String) : Except Err DataFrame :=
  match df.getCol n with
  | none => .error (.keyError n)
  | some c => .ok (df.setCol n (c.cells.map toNumericCell))

/-- Lines 35-37: coerce `Start_Lng`, `Start_Lat`, `Temperature(F)`, in that
order; the first absent column aborts the script. -/
def coerceStep (df : DataFrame) : Except Err DataFrame :=
  match coerceCol df "Start_Lng" with
  | .error e => .error e
  | .ok df1 =>
      match coerceCol df1 "Start_Lat" with
      | .error e => .error e
      | .ok df2 => coerceCol df2 "Temperature(F)"

/-- Modelled from the spec: the timestamp syntax accepted by
`pd.to_datetime` (`"Y-M-D h:m:s"`; the pandas parser itself is library
code).  The result is a timestamp in seconds, so that the time of day is the
timestamp modulo 86400. -/
def parseDT (s : String) : Option ℕ :=
  match s.data.splitOn ' ' with
  | [d, t] =>
      match d.splitOn '-', t.splitOn ':' with
      | [y, mo, da], [h, mi, se] =>
          match parseDigits y, parseDigits mo, parseDigits da,
                parseDigits h, parseDigits mi, parseDigits se with
          | some yy, some moo, some daa, some hh, some mii, some see =>
              if 1 ≤ moo ∧ moo ≤ 12 ∧ 1 ≤ daa ∧ daa ≤ 31 ∧
                 hh < 24 ∧ mii < 60 ∧ see < 60 then
                some ((((yy * 372 + (moo - 1) * 31 + (daa - 1)) * 24 + hh) * 60
                        + mii) * 60 + see)
              else none
          | _, _, _, _, _, _ => none
      | _, _ => none
  | _ => none

/-- Parsing `pd.to_datetime(·, errors='coerce')` on a single cell: parseable strings
become datetimes, datetimes pass through, nonnegative integers are read as
epoch offsets, everything else becomes NaT; nothing ever raises. -/
def toDatetimeCell : Cell → Cell
  | .na => .na
  | .dt t => .dt t
  | .str s => match parseDT s with | some t => .dt t | none => .na
  | .num q => if q.den = 1 ∧ 0 ≤ q.num then .dt q.num.toNat else .na

/-- Accessor `.dt.hour`: the hour component of a datetime cell, NaN otherwise. -/
def hourCell : Cell → Cell
  | .dt t => .num (((t % 86400) / 3600 : ℕ) : ℚ)
  | _ => .na

/-- Lines 86-87: `df['Start_Time'] = pd.to_datetime(df['Start_Time'],
errors='coerce'); df['Hours'] = df['Start_Time'].dt.hour`.  Reading
`df['Start_Time']` raises `KeyError` when the column is absent.  This is the
only statement after the cleaning pipeline that assigns into `df`. -/
def timeStep (df : DataFrame) : Except Err DataFrame :=
  match df.getCol "Start_Time" with
  | none => .error (.keyError "Start_Time")
  | some c =>
      let parsed := c.cells.map toDatetimeCell
      .ok ((df.setCol "Start_Time" parsed).setCol "Hours" (parsed.map hourCell))

/-- The visualization steps of the script, in source order.  (`df_cat` of
lines 27 and 31 is never read after being built, so it is not modelled.) -/
inductive PlotStep where
  | heatmap | cityBar | severityPie | roadPie | weatherBar | timeHist
  | geoScatter | tempBox | windViolin | tempDensity | pairplot
deriving Repr, DecidableEq

/-- One displayed figure (`plt.show()`), with the data columns it reads. -/
structure PlotEvent where
  step : PlotStep
  cols : List String
deriving Repr, DecidableEq

/-- An `if col in df.columns:`-guarded plot: one figure when the column is
present, silently skipped otherwise. -/
def guardPlot (df : DataFrame) (n : String) (s : PlotStep) : List PlotEvent :=
  if df.hasCol n then [⟨s, [n]⟩] else []

/-- Lines 96-105: the scatter reads `Start_Lng`, `Start_Lat` and `State`
with no guard; the first absent one raises before the figure is shown. -/
def scatterCheck (df : DataFrame) : Option String :=
  if !df.hasCol "Start_Lng" then some "Start_Lng"
  else if !df.hasCol "Start_Lat" then some "Start_Lat"
  else if !df.hasCol "State" then some "State"
  else none

/-- A linear congruential step, the pseudo-random source of the sampling
model. -/
def lcg (s : ℕ) : ℕ := (1103515245 * s + 12345) % 2147483648

/-- Draw `n` elements without replacement from `avail`, deterministically
from the seed (a Fisher-Yates style selection). -/
def fyPick : List ℕ → ℕ → ℕ → List ℕ
  | _, 0, _ => []
  | avail, m + 1, s =>
      if avail.isEmpty then []
      else
        let s' := lcg s
        let i := s' % avail.length
        avail.getD i 0 :: fyPick (avail.eraseIdx i) m s'

/-- The row indices `df.sample` selects from `len` rows. -/
def fySelect (len n seed : ℕ) : List ℕ := fyPick (List.range len) n seed

/-- Modelled from the spec: `df.sample(n=n, random_state=seed)` (the
sampling routine itself is pandas library code).  It raises `ValueError`
when `n` exceeds the number of rows and otherwise selects `n` rows without
replacement, as a deterministic function of the frame size and the seed. -/
def sampleRows (df : DataFrame) (n seed : ℕ) : Except Err DataFrame :=
  if n ≤ df.nrows then
    let idxs := fySelect df.nrows n seed
    .ok ⟨n, df.cols.map (fun c => ⟨c.name, idxs.map (fun i => c.cells.getD i .na)⟩)⟩
  else .error .valueError

/-- Selection `df_sample[names]`: column selection, raising `KeyError` at the first
absent name. -/
def restrictCols (df : DataFrame) (names : List String) : Except Err DataFrame :=
  match names.find? (fun n => !df.hasCol n) with
  | some n => .error (.keyError n)
  | none => .ok ⟨df.nrows, names.map (fun n => (df.getCol n).getD ⟨n, []⟩)⟩

/-- Lines 95-150: the plots after the time-of-day step.  None of them
assigns into `df`; the scatter and the density plot index columns with no
guard, and the pairplot samples `min(len(df), 5000)` rows (line 137) and
selects `df_num.columns` from the sample (line 140). -/
def plotsAfterTime (dfNumNames : List String) (df : DataFrame) :
    List PlotEvent × Except Err DataFrame :=
  match scatterCheck df with
  | some n => ([], .error (.keyError n))
  | none =>
      let scat := [PlotEvent.mk .geoScatter ["Start_Lng", "Start_Lat", "State"]]
      let box := if df.hasCol "Severity" && df.hasCol "Temperature(F)" then
        [PlotEvent.mk .tempBox ["Severity", "Temperature(F)"]] else []
      let violin := if df.hasCol "Wind_Speed(mph)" && df.hasCol "Severity" then
        [PlotEvent.mk .windViolin ["Severity", "Wind_Speed(mph)"]] else []
      match df.getCol "Temperature(F)" with
      | none => (scat ++ box ++ violin, .error (.keyError "Temperature(F)"))
      | some _ =>
          let dens := [PlotEvent.mk .tempDensity ["Temperature(F)"]]
          match sampleRows df (min df.nrows 5000) 42 with
          | .error e => (scat ++ box ++ violin ++ dens, .error e)
          | .ok dfS =>
              match restrictCols dfS dfNumNames with
              | .error e => (scat ++ box ++ violin ++ dens, .error e)
              | .ok _ =>
                  (scat ++ box ++ violin ++ dens ++ [PlotEvent.mk .pairplot dfNumNames],
                   .ok df)

/-- Lines 43-150: the whole plotting phase, starting from the cleaned frame
and the snapshot of the numeric column names. -/
def plotsPhase (dfNumNames : List String) (df : DataFrame) :
    List PlotEvent × Except Err DataFrame :=
  let pre := [PlotEvent.mk .heatmap dfNumNames]
      ++ guardPlot df "City" .cityBar
      ++ guardPlot df "Severity" .severityPie
      ++ guardPlot df "Road_Condition" .roadPie
      ++ guardPlot df "Weather_Condition" .weatherBar
  match timeStep df with
  | .error e => (pre, .error e)
  | .ok df6 =>
      let rest := plotsAfterTime dfNumNames df6
      (pre ++ [PlotEvent.mk .timeHist ["Hours"]] ++ rest.1, rest.2)

/-- Line 12: the row bound of `pd.read_csv(..., nrows=100000)`. -/
def maxRows : ℕ := 100000

/-- Lines 12-37, the cleaning pipeline: load, prune columns by missing
values, drop `Airport_Code`, coerce the three columns to numeric. -/
def cleaned (file : DataFrame) : Except Err DataFrame :=
  coerceStep ((dropnaCols (readCsv file maxRows)).dropCols ["Airport_Code"])

/-- The whole script on a CSV file (modelled as its parsed dataframe): the
plot events emitted before the first uncaught exception, and the final
dataframe or that exception.  The numeric-column snapshot `df_num` is
taken right after the pruning (line 28), before the `to_numeric`
coercions. -/
def run (file : DataFrame) : List PlotEvent × Except Err DataFrame :=
  let dfNumNames := numericColNames (dropnaCols (readCsv file maxRows))
  match cleaned file with
  | .error e => ([], .error e)
  | .ok df5 => plotsPhase dfNumNames df5

/-- The figures a run displays. -/
def eventsOf (file : DataFrame) : List PlotEvent := (run file).1

/-- The run's final dataframe or uncaught exception. -/
def outcomeOf (file : DataFrame) : Except Err DataFrame := (run file).2

/-- The displayed plot steps, in order. -/
def stepsOf (file : DataFrame) : List PlotStep :=
  (eventsOf file).map PlotEvent.step

/-- The column lists passed to the displayed instances of one plot step. -/
def plotCols (file : DataFrame) (s : PlotStep) : List (List String) :=
  (eventsOf file).filterMap (fun e => if e.step = s then some e.cols else none)

/-- All plot steps of the script in source order, each occurring once. -/
def canonicalOrder : List PlotStep :=
  [.heatmap, .cityBar, .severityPie, .roadPie, .weatherBar, .timeHist,
   .geoScatter, .tempBox, .windViolin, .tempDensity, .pairplot]

/-! ### Concrete input files for witnesses and counterexamples -/

/-- A two-row CSV containing every column the script mentions. -/
def exFull : DataFrame :=
  ⟨2, [⟨"Start_Lng", [.num 1, .num 2]⟩,
       ⟨"Start_Lat", [.num 3, .num 4]⟩,
       ⟨"Temperature(F)", [.num 70, .num 65]⟩,
       ⟨"Start_Time", [.str "2023-01-02 08:30:00", .str "bad"]⟩,
       ⟨"State", [.str "CA", .str "NV"]⟩,
       ⟨"City", [.str "LA", .str "SF"]⟩,
       ⟨"Severity", [.num 2, .num 3]⟩,
       ⟨"Road_Condition", [.str "Dry", .str "Wet"]⟩,
       ⟨"Weather_Condition", [.str "Clear", .str "Rain"]⟩,
       ⟨"Wind_Speed(mph)", [.num 5, .num 6]⟩]⟩

/-- A two-row CSV with only the columns the unguarded steps need: no
`City`, `Severity`, `Road_Condition`, `Weather_Condition` or
`Wind_Speed(mph)`. -/
def exNoCity : DataFrame :=
  ⟨2, [⟨"Start_Lng", [.num 1, .num 2]⟩,
       ⟨"Start_Lat", [.num 3, .num 4]⟩,
       ⟨"Temperature(F)", [.num 70, .num 65]⟩,
       ⟨"Start_Time", [.str "2023-01-02 08:30:00", .str "2023-01-02 23:59:59"]⟩,
       ⟨"State", [.str "CA", .str "NV"]⟩]⟩

/-- A two-row CSV whose `Temperature(F)` column is loaded as text (object
dtype) though every entry parses as a number. -/
def exTempStr : DataFrame :=
  ⟨2, [⟨"Start_Lng", [.num 1, .num 2]⟩,
       ⟨"Start_Lat", [.num 3, .num 4]⟩,
       ⟨"Temperature(F)", [.str "70", .str "65"]⟩,
       ⟨"Start_Time", [.str "2023-01-02 08:30:00", .str "2023-01-02 09:30:00"]⟩,
       ⟨"State", [.str "CA", .str "NV"]⟩]⟩

/-- A two-row CSV with no `State` column (but with `City`, so some guarded
plots still fire). -/
def exNoState : DataFrame :=
  ⟨2, [⟨"Start_Lng", [.num 1, .num 2]⟩,
       ⟨"Start_Lat", [.num 3, .num 4]⟩,
       ⟨"Temperature(F)", [.num 70, .num 65]⟩,
       ⟨"Start_Time", [.str "2023-01-02 08:30:00", .str "2023-01-02 09:30:00"]⟩,
       ⟨"City", [.str "LA", .str "SF"]⟩]⟩

/-- A two-row CSV with no `Temperature(F)` column at all. -/
def exNoTemp : DataFrame :=
  ⟨2, [⟨"Start_Lng", [.num 1, .num 2]⟩,
       ⟨"Start_Lat", [.num 3, .num 4]⟩,
       ⟨"Start_Time", [.str "2023-01-02 08:30:00", .str "2023-01-02 09:30:00"]⟩,
       ⟨"State", [.str "CA", .str "NV"]⟩]⟩

/-- A ten-row frame for the pruning witness: `Keep30` has exactly 30%
missing values, `Drop40` has 40%. -/
def exC1 : DataFrame :=
  ⟨10, [⟨"Keep30", [.num 1, .num 2, .num 3, .num 4, .num 5, .num 6, .num 7,
                    .na, .na, .na]⟩,
        ⟨"Drop40", [.num 1, .num 2, .num 3, .num 4, .num 5, .num 6,
                    .na, .na, .na, .na]⟩]⟩

/-- The cleaned frame of a file, defaulting to the empty frame when the
cleaning pipeline raises. -/
def cleanedD (file : DataFrame) : DataFrame :=
  match cleaned file with
  | .ok df => df
  | .error _ => ⟨0, []⟩

/-- The frame after the time-of-day step, unchanged when the step raises. -/
def timeStepD (df : DataFrame) : DataFrame :=
  match timeStep df with
  | .ok d => d
  | .error _ => df

/-! ### Helper lemmas about column lookup and assignment -/

theorem findCol_setColList_self (l : List Col) (n : String) (cells : List Cell) :
    findCol (setColList l n cells) n = some ⟨n, cells⟩ := by
  induction l with
  | nil => simp [setColList, findCol]
  | cons c cs ih =>
      by_cases h : c.name = n
      · simp [setColList, h, findCol]
      · simp [setColList, h, findCol, ih]

theorem findCol_setColList_ne (l : List Col) (n m : String) (cells : List Cell)
    (h : m ≠ n) : findCol (setColList l n cells) m = findCol l m := by
  induction l with
  | nil => simp [setColList, findCol, Ne.symm h]
  | cons c cs ih =>
      by_cases hc : c.name = n
      · have hcm : c.name ≠ m := by rw [hc]; exact Ne.symm h
        simp [setColList, hc, findCol, Ne.symm h, hcm]
      · by_cases hm : c.name = m
        · simp [setColList, hc, findCol, hm, h]
        · simp [setColList, hc, findCol, hm, ih]

theorem getCol_setCol_self (df : DataFrame) (n : String) (cells : List Cell) :
    (df.setCol n cells).getCol n = some ⟨n, cells⟩ :=
  findCol_setColList_self df.cols n cells

theorem getCol_setCol_ne (df : DataFrame) (n m : String) (cells : List Cell)
    (h : m ≠ n) : (df.setCol n cells).getCol m = df.getCol m :=
  findCol_setColList_ne df.cols n m cells h

theorem hasCol_setCol (df : DataFrame) (n : String) (cells : List Cell)
    (m : String) :
    (df.setCol n cells).hasCol m = if m = n then true else df.hasCol m := by
  by_cases h : m = n
  · subst h; simp [DataFrame.hasCol, getCol_setCol_self]
  · simp [DataFrame.hasCol, getCol_setCol_ne df n m cells h, h]

theorem hasCol_setCol_of_hasCol (df : DataFrame) (n : String) (cells : List Cell)
    (m : String) (h : df.hasCol m = true) :
    (df.setCol n cells).hasCol m = true := by
  rw [hasCol_setCol]
  by_cases hm : m = n <;> simp [hm, h]

theorem findCol_isSome_of_mem (l : List Col) (n : String) (c : Col)
    (hc : c ∈ l) (hn : c.name = n) : (findCol l n).isSome = true := by
  induction l with
  | nil => cases hc
  | cons d ds ih =>
      rcases List.mem_cons.mp hc with h | h
      · subst h; simp [findCol, hn]
      · by_cases hd : d.name = n
        · simp [findCol, hd]
        · simp [findCol, hd, ih h]

theorem findCol_filter_isSome (p : Col → Bool) (l : List Col) (n : String)
    (hp : ∀ c ∈ l, c.name = n → p c = true) :
    (findCol (l.filter p) n).isSome = (findCol l n).isSome := by
  induction l with
  | nil => simp
  | cons c cs ih =>
      by_cases hc : c.name = n
      · rw [List.filter_cons, hp c (List.mem_cons_self c cs) hc]
        simp [findCol, hc]
      · rw [List.filter_cons]
        have ihh := ih (fun d hd => hp d (List.mem_cons_of_mem c hd))
        by_cases hpc : p c
        · simp [hpc, findCol, hc, ihh]
        · simp [hpc, findCol, hc, ihh]

theorem findCol_cols_map (f : Col → List Cell) (l : List Col) (n : String) :
    (findCol (l.map (fun c => ⟨c.name, f c⟩)) n).isSome = (findCol l n).isSome := by
  induction l with
  | nil => simp
  | cons c cs ih =>
      by_cases hc : c.name = n
      · simp [findCol, hc]
      · simp [findCol, hc, ih]

theorem length_filter_not_add (l : List Cell) (p : Cell → Bool) :
    (l.filter (fun x => !p x)).length + (l.filter p).length = l.length := by
  induction l with
  | nil => simp
  | cons x xs ih =>
      by_cases hx : p x
      · simp [List.filter_cons, hx]; omega
      · simp [List.filter_cons, hx]; omega

theorem nonNACount_add_naCount (cs : List Cell) :
    nonNACount cs + naCount cs = cs.length :=
  length_filter_not_add cs Cell.isNA

/-! ### Inversion and shape lemmas for the pipeline stages -/

theorem coerceCol_ok_inv (df df' : DataFrame) (n : String)
    (h : coerceCol df n = .ok df') :
    ∃ c, df.getCol n = some c ∧ df' = df.setCol n (c.cells.map toNumericCell) := by
  unfold coerceCol at h
  cases hg : df.getCol n with
  | none => rw [hg] at h; simp at h
  | some c => rw [hg] at h; simp at h; exact ⟨c, rfl, h.symm⟩

theorem coerceStep_ok_inv (df df' : DataFrame) (h : coerceStep df = .ok df') :
    df'.hasCol "Start_Lng" = true ∧ df'.hasCol "Start_Lat" = true ∧
    df'.hasCol "Temperature(F)" = true ∧
    (∀ m, df.hasCol m = true → df'.hasCol m = true) := by
  unfold coerceStep at h
  cases h1 : coerceCol df "Start_Lng" with
  | error e => rw [h1] at h; simp at h
  | ok df1 =>
      rw [h1] at h
      dsimp only at h
      cases h2 : coerceCol df1 "Start_Lat" with
      | error e => rw [h2] at h; simp at h
      | ok df2 =>
          rw [h2] at h
          dsimp only at h
          obtain ⟨c1, hg1, rfl⟩ := coerceCol_ok_inv _ _ _ h1
          obtain ⟨c2, hg2, rfl⟩ := coerceCol_ok_inv _ _ _ h2
          obtain ⟨c3, hg3, rfl⟩ := coerceCol_ok_inv _ _ _ h
          refine ⟨?_, ?_, ?_, ?_⟩
          · rw [hasCol_setCol, if_neg (by decide), hasCol_setCol,
              if_neg (by decide), hasCol_setCol, if_pos rfl]
          · rw [hasCol_setCol, if_neg (by decide), hasCol_setCol, if_pos rfl]
          · rw [hasCol_setCol, if_pos rfl]
          · intro m hm
            exact hasCol_setCol_of_hasCol _ _ _ _
              (hasCol_setCol_of_hasCol _ _ _ _
                (hasCol_setCol_of_hasCol _ _ _ _ hm))

theorem timeStep_eq_of_getCol (df : DataFrame) (c : Col)
    (hc : df.getCol "Start_Time" = some c) :
    timeStep df = .ok ((df.setCol "Start_Time" (c.cells.map toDatetimeCell)).setCol
      "Hours" ((c.cells.map toDatetimeCell).map hourCell)) := by
  unfold timeStep
  rw [hc]

theorem timeStep_ok_of_hasCol (df : DataFrame)
    (h : df.hasCol "Start_Time" = true) : ∃ df6, timeStep df = .ok df6 := by
  rw [DataFrame.hasCol, Option.isSome_iff_exists] at h
  obtain ⟨c, hc⟩ := h
  exact ⟨_, timeStep_eq_of_getCol df c hc⟩

theorem timeStep_ok_inv (df df6 : DataFrame) (h : timeStep df = .ok df6) :
    (∀ m, m ≠ "Start_Time" → m ≠ "Hours" → df6.getCol m = df.getCol m) ∧
    df6.hasCol "Start_Time" = true ∧ df6.hasCol "Hours" = true ∧
    (∀ m, df.hasCol m = true → df6.hasCol m = true) := by
  unfold timeStep at h
  cases hg : df.getCol "Start_Time" with
  | none => rw [hg] at h; simp at h
  | some c =>
      rw [hg] at h
      simp only [Except.ok.injEq] at h
      subst h
      refine ⟨?_, ?_, ?_, ?_⟩
      · intro m hm1 hm2
        rw [getCol_setCol_ne _ _ _ _ hm2, getCol_setCol_ne _ _ _ _ hm1]
      · rw [hasCol_setCol, if_neg (by decide), hasCol_setCol, if_pos rfl]
      · rw [hasCol_setCol, if_pos rfl]
      · intro m hm
        exact hasCol_setCol_of_hasCol _ _ _ _ (hasCol_setCol_of_hasCol _ _ _ _ hm)

theorem hasCol_dropCols (df : DataFrame) (names : List String) (m : String)
    (hm : m ∉ names) : (df.dropCols names).hasCol m = df.hasCol m := by
  unfold DataFrame.dropCols DataFrame.hasCol DataFrame.getCol
  exact findCol_filter_isSome _ df.cols m
    (fun c _ hc => by simp [hc, hm])

theorem hasCol_of_mem_numericColNames (df : DataFrame) (n : String)
    (h : n ∈ numericColNames df) : df.hasCol n = true := by
  simp only [numericColNames, numericCols, List.mem_map] at h
  obtain ⟨c, hc, rfl⟩ := h
  exact findCol_isSome_of_mem _ _ c (List.mem_of_mem_filter hc) rfl

theorem sampleRows_ok (df : DataFrame) (n seed : ℕ) (h : n ≤ df.nrows) :
    sampleRows df n seed =
      .ok ⟨n, df.cols.map (fun c =>
        ⟨c.name, (fySelect df.nrows n seed).map (fun i => c.cells.getD i .na)⟩)⟩ := by
  simp [sampleRows, h]

theorem hasCol_sampled (df : DataFrame) (n seed : ℕ) (m : String) :
    (DataFrame.mk n (df.cols.map (fun c =>
      ⟨c.name, (fySelect df.nrows n seed).map (fun i => c.cells.getD i .na)⟩))).hasCol m
      = df.hasCol m := by
  unfold DataFrame.hasCol DataFrame.getCol
  exact findCol_cols_map _ df.cols m

theorem restrictCols_ok (df : DataFrame) (names : List String)
    (h : ∀ n ∈ names, df.hasCol n = true) :
    ∃ x, restrictCols df names = .ok x := by
  unfold restrictCols
  cases hf : names.find? (fun n => !df.hasCol n) with
  | none => exact ⟨_, rfl⟩
  | some n =>
      have hp := List.find?_some hf
      have hmem := List.mem_of_find?_eq_some hf
      rw [h n hmem] at hp
      simp at hp

/-! ### Shape of a successful run -/

theorem plotsAfterTime_ok_shape (names : List String) (df dfF : DataFrame)
    (h : (plotsAfterTime names df).2 = .ok dfF) :
    dfF = df ∧
    (plotsAfterTime names df).1 =
      [PlotEvent.mk .geoScatter ["Start_Lng", "Start_Lat", "State"]]
      ++ (if df.hasCol "Severity" && df.hasCol "Temperature(F)" then
            [PlotEvent.mk .tempBox ["Severity", "Temperature(F)"]] else [])
      ++ (if df.hasCol "Wind_Speed(mph)" && df.hasCol "Severity" then
            [PlotEvent.mk .windViolin ["Severity", "Wind_Speed(mph)"]] else [])
      ++ [PlotEvent.mk .tempDensity ["Temperature(F)"]]
      ++ [PlotEvent.mk .pairplot names] := by
  unfold plotsAfterTime at h ⊢
  cases hs : scatterCheck df with
  | some n => rw [hs] at h; simp at h
  | none =>
      rw [hs] at h
      dsimp only at h ⊢
      cases hg : df.getCol "Temperature(F)" with
      | none => rw [hg] at h; simp at h
      | some c =>
          rw [hg] at h
          dsimp only at h ⊢
          cases hsamp : sampleRows df (min df.nrows 5000) 42 with
          | error e => rw [hsamp] at h; simp at h
          | ok dfS =>
              rw [hsamp] at h
              dsimp only at h ⊢
              cases hr : restrictCols dfS names with
              | error e => rw [hr] at h; simp at h
              | ok y =>
                  rw [hr] at h
                  dsimp only at h ⊢
                  simp only [Except.ok.injEq] at h
                  exact ⟨h.symm, rfl⟩

theorem run_cleaned_ok (file df : DataFrame) (h : cleaned file = .ok df) :
    run file = plotsPhase (numericColNames (dropnaCols (readCsv file maxRows))) df := by
  unfold run
  rw [h]

theorem run_cleaned_error (file : DataFrame) (e : Err)
    (h : cleaned file = .error e) : run file = ([], .error e) := by
  unfold run
  rw [h]

theorem run_ok_shape (file dfF : DataFrame) (h : (run file).2 = .ok dfF) :
    ∃ df5, cleaned file = .ok df5 ∧ timeStep df5 = .ok dfF ∧
      (run file).1 =
        ([PlotEvent.mk .heatmap (numericColNames (dropnaCols (readCsv file maxRows)))]
          ++ guardPlot df5 "City" .cityBar
          ++ guardPlot df5 "Severity" .severityPie
          ++ guardPlot df5 "Road_Condition" .roadPie
          ++ guardPlot df5 "Weather_Condition" .weatherBar)
        ++ [PlotEvent.mk .timeHist ["Hours"]]
        ++ ([PlotEvent.mk .geoScatter ["Start_Lng", "Start_Lat", "State"]]
          ++ (if dfF.hasCol "Severity" && dfF.hasCol "Temperature(F)" then
                [PlotEvent.mk .tempBox ["Severity", "Temperature(F)"]] else [])
          ++ (if dfF.hasCol "Wind_Speed(mph)" && dfF.hasCol "Severity" then
                [PlotEvent.mk .windViolin ["Severity", "Wind_Speed(mph)"]] else [])
          ++ [PlotEvent.mk .tempDensity ["Temperature(F)"]]
          ++ [PlotEvent.mk .pairplot
                (numericColNames (dropnaCols (readCsv file maxRows)))]) := by
  cases hc : cleaned file with
  | error e => rw [run_cleaned_error file e hc] at h; simp at h
  | ok df5 =>
      rw [run_cleaned_ok file df5 hc] at h ⊢
      unfold plotsPhase at h ⊢
      cases ht : timeStep df5 with
      | error e => rw [ht] at h; simp at h
      | ok df6 =>
          rw [ht] at h
          dsimp only at h ⊢
          obtain ⟨rfl, hsh⟩ := plotsAfterTime_ok_shape _ _ _ h
          refine ⟨df5, rfl, ht, ?_⟩
          rw [hsh]

/-! ### Order and multiplicity of the emitted plot steps -/

theorem guardPlot_steps_sublist (df : DataFrame) (n : String) (s : PlotStep) :
    List.Sublist ((guardPlot df n s).map PlotEvent.step) [s] := by
  unfold guardPlot
  by_cases h : df.hasCol n = true
  · rw [if_pos h]; exact List.Sublist.refl _
  · rw [if_neg h]; exact List.nil_sublist _

theorem pre_steps_sublist (df : DataFrame) (names : List String) :
    List.Sublist (([PlotEvent.mk .heatmap names] ++ guardPlot df "City" .cityBar
      ++ guardPlot df "Severity" .severityPie
      ++ guardPlot df "Road_Condition" .roadPie
      ++ guardPlot df "Weather_Condition" .weatherBar).map PlotEvent.step)
    [.heatmap, .cityBar, .severityPie, .roadPie, .weatherBar] := by
  simp only [List.map_append]
  exact ((((List.Sublist.refl [PlotStep.heatmap]).append
    (guardPlot_steps_sublist df _ _)).append
    (guardPlot_steps_sublist df _ _)).append
    (guardPlot_steps_sublist df _ _)).append
    (guardPlot_steps_sublist df _ _)

theorem box_steps_sublist (df : DataFrame) :
    List.Sublist ((if df.hasCol "Severity" && df.hasCol "Temperature(F)" then
      [PlotEvent.mk .tempBox ["Severity", "Temperature(F)"]] else
      []).map PlotEvent.step) [PlotStep.tempBox] := by
  by_cases h : (df.hasCol "Severity" && df.hasCol "Temperature(F)") = true
  · rw [if_pos h]; exact List.Sublist.refl _
  · rw [if_neg h]; exact List.nil_sublist _

theorem violin_steps_sublist (df : DataFrame) :
    List.Sublist ((if df.hasCol "Wind_Speed(mph)" && df.hasCol "Severity" then
      [PlotEvent.mk .windViolin ["Severity", "Wind_Speed(mph)"]] else
      []).map PlotEvent.step) [PlotStep.windViolin] := by
  by_cases h : (df.hasCol "Wind_Speed(mph)" && df.hasCol "Severity") = true
  · rw [if_pos h]; exact List.Sublist.refl _
  · rw [if_neg h]; exact List.nil_sublist _

theorem after_steps_sublist (names : List String) (df : DataFrame) :
    List.Sublist ((plotsAfterTime names df).1.map PlotEvent.step)
    [.geoScatter, .tempBox, .windViolin, .tempDensity, .pairplot] := by
  unfold plotsAfterTime
  cases hs : scatterCheck df with
  | some n => exact List.nil_sublist _
  | none =>
      dsimp only
      cases hg : df.getCol "Temperature(F)" with
      | none =>
          dsimp only
          simp only [List.map_append]
          exact (((List.Sublist.refl [PlotStep.geoScatter]).append
            (box_steps_sublist df)).append (violin_steps_sublist df)).trans
            (List.sublist_append_left _ [PlotStep.tempDensity, PlotStep.pairplot])
      | some c =>
          dsimp only
          cases hsamp : sampleRows df (min df.nrows 5000) 42 with
          | error e =>
              dsimp only
              simp only [List.map_append]
              exact ((((List.Sublist.refl [PlotStep.geoScatter]).append
                (box_steps_sublist df)).append (violin_steps_sublist df)).append
                (List.Sublist.refl [PlotStep.tempDensity])).trans
                (List.sublist_append_left _ [PlotStep.pairplot])
          | ok dfS =>
              dsimp only
              cases hr : restrictCols dfS names with
              | error e =>
                  dsimp only
                  simp only [List.map_append]
                  exact ((((List.Sublist.refl [PlotStep.geoScatter]).append
                    (box_steps_sublist df)).append (violin_steps_sublist df)).append
                    (List.Sublist.refl [PlotStep.tempDensity])).trans
                    (List.sublist_append_left _ [PlotStep.pairplot])
              | ok y =>
                  dsimp only
                  simp only [List.map_append]
                  exact ((((List.Sublist.refl [PlotStep.geoScatter]).append
                    (box_steps_sublist df)).append (violin_steps_sublist df)).append
                    (List.Sublist.refl [PlotStep.tempDensity])).append
                    (List.Sublist.refl [PlotStep.pairplot])

theorem run_steps_sublist (file : DataFrame) : List.Sublist (stepsOf file) canonicalOrder := by
  unfold stepsOf eventsOf
  cases hc : cleaned file with
  | error e => rw [run_cleaned_error file e hc]; exact List.nil_sublist _
  | ok df5 =>
      rw [run_cleaned_ok file df5 hc]
      unfold plotsPhase
      cases ht : timeStep df5 with
      | error e =>
          dsimp only
          rw [show canonicalOrder =
            [PlotStep.heatmap, .cityBar, .severityPie, .roadPie, .weatherBar] ++
            [.timeHist, .geoScatter, .tempBox, .windViolin, .tempDensity,
              .pairplot] from rfl]
          exact (pre_steps_sublist df5 _).trans (List.sublist_append_left _ _)
      | ok df6 =>
          dsimp only
          rw [show canonicalOrder =
            ([PlotStep.heatmap, .cityBar, .severityPie, .roadPie, .weatherBar] ++
              [PlotStep.timeHist]) ++
            [.geoScatter, .tempBox, .windViolin, .tempDensity,
              .pairplot] from rfl, List.map_append, List.map_append]
          exact ((pre_steps_sublist df5 _).append
            (List.Sublist.refl [PlotStep.timeHist])).append
            (after_steps_sublist _ df6)

theorem run_heatmap_first (file : DataFrame) :
    List.Sublist ((stepsOf file).take 1) [PlotStep.heatmap] := by
  unfold stepsOf eventsOf
  cases hc : cleaned file with
  | error e => rw [run_cleaned_error file e hc]; exact List.nil_sublist _
  | ok df5 =>
      rw [run_cleaned_ok file df5 hc]
      unfold plotsPhase
      cases ht : timeStep df5 with
      | error e => exact List.Sublist.refl _
      | ok df6 => exact List.Sublist.refl _

/-! ### Which steps can appear, and under what column conditions -/

theorem mem_guardPlot (df : DataFrame) (n : String) (s : PlotStep)
    (e : PlotEvent) (he : e ∈ guardPlot df n s) :
    e.step = s ∧ df.hasCol n = true := by
  unfold guardPlot at he
  by_cases h : df.hasCol n = true
  · rw [if_pos h] at he
    simp at he
    subst he
    exact ⟨rfl, h⟩
  · rw [if_neg h] at he
    simp at he

theorem mem_box_step (df : DataFrame) (e : PlotEvent)
    (he : e ∈ (if df.hasCol "Severity" && df.hasCol "Temperature(F)" then
      [PlotEvent.mk .tempBox ["Severity", "Temperature(F)"]] else [])) :
    e.step = .tempBox ∧ df.hasCol "Severity" = true ∧
      df.hasCol "Temperature(F)" = true := by
  by_cases h : (df.hasCol "Severity" && df.hasCol "Temperature(F)") = true
  · rw [if_pos h] at he
    simp at he
    subst he
    simp only [Bool.and_eq_true] at h
    exact ⟨rfl, h.1, h.2⟩
  · rw [if_neg h] at he
    simp at he

theorem mem_violin_step (df : DataFrame) (e : PlotEvent)
    (he : e ∈ (if df.hasCol "Wind_Speed(mph)" && df.hasCol "Severity" then
      [PlotEvent.mk .windViolin ["Severity", "Wind_Speed(mph)"]] else [])) :
    e.step = .windViolin ∧ df.hasCol "Wind_Speed(mph)" = true ∧
      df.hasCol "Severity" = true := by
  by_cases h : (df.hasCol "Wind_Speed(mph)" && df.hasCol "Severity") = true
  · rw [if_pos h] at he
    simp at he
    subst he
    simp only [Bool.and_eq_true] at h
    exact ⟨rfl, h.1, h.2⟩
  · rw [if_neg h] at he
    simp at he

theorem plotsAfterTime_events (names : List String) (df : DataFrame)
    (e : PlotEvent) (he : e ∈ (plotsAfterTime names df).1) :
    e.step = .geoScatter ∨ e.step = .tempDensity ∨ e.step = .pairplot ∨
    (e.step = .tempBox ∧ df.hasCol "Severity" = true ∧
      df.hasCol "Temperature(F)" = true) ∨
    (e.step = .windViolin ∧ df.hasCol "Wind_Speed(mph)" = true ∧
      df.hasCol "Severity" = true) := by
  unfold plotsAfterTime at he
  cases hs : scatterCheck df with
  | some n => rw [hs] at he; simp at he
  | none =>
      rw [hs] at he
      dsimp only at he
      cases hg : df.getCol "Temperature(F)" with
      | none =>
          rw [hg] at he
          dsimp only at he
          rcases List.mem_append.mp he with he | he
          · rcases List.mem_append.mp he with he | he
            · simp at he; subst he; exact Or.inl rfl
            · exact Or.inr (Or.inr (Or.inr (Or.inl (mem_box_step df e he))))
          · exact Or.inr (Or.inr (Or.inr (Or.inr (mem_violin_step df e he))))
      | some c =>
          rw [hg] at he
          dsimp only at he
          cases hsamp : sampleRows df (min df.nrows 5000) 42 with
          | error er =>
              rw [hsamp] at he
              dsimp only at he
              rcases List.mem_append.mp he with he | he
              · rcases List.mem_append.mp he with he | he
                · rcases List.mem_append.mp he with he | he
                  · simp at he; subst he; exact Or.inl rfl
                  · exact Or.inr (Or.inr (Or.inr (Or.inl (mem_box_step df e he))))
                · exact Or.inr (Or.inr (Or.inr (Or.inr (mem_violin_step df e he))))
              · simp at he; subst he; exact Or.inr (Or.inl rfl)
          | ok dfS =>
              rw [hsamp] at he
              dsimp only at he
              cases hr : restrictCols dfS names with
              | error er =>
                  rw [hr] at he
                  dsimp only at he
                  rcases List.mem_append.mp he with he | he
                  · rcases List.mem_append.mp he with he | he
                    · rcases List.mem_append.mp he with he | he
                      · simp at he; subst he; exact Or.inl rfl
                      · exact Or.inr (Or.inr (Or.inr (Or.inl (mem_box_step df e he))))
                    · exact Or.inr (Or.inr (Or.inr (Or.inr (mem_violin_step df e he))))
                  · simp at he; subst he; exact Or.inr (Or.inl rfl)
              | ok y =>
                  rw [hr] at he
                  dsimp only at he
                  rcases List.mem_append.mp he with he | he
                  · rcases List.mem_append.mp he with he | he
                    · rcases List.mem_append.mp he with he | he
                      · rcases List.mem_append.mp he with he | he
                        · simp at he; subst he; exact Or.inl rfl
                        · exact Or.inr (Or.inr (Or.inr (Or.inl (mem_box_step df e he))))
                      · exact Or.inr (Or.inr (Or.inr (Or.inr (mem_violin_step df e he))))
                    · simp at he; subst he; exact Or.inr (Or.inl rfl)
                  · simp at he; subst he; exact Or.inr (Or.inr (Or.inl rfl))

/-- Any event of a run whose cleaning succeeded is the heatmap, a guarded
plot whose column was present, the time histogram, or a post-time-step
plot; the box and violin plots additionally certify their guard columns in
the cleaned frame. -/
theorem run_events_decomp (file df5 : DataFrame) (h : cleaned file = .ok df5)
    (e : PlotEvent) (he : e ∈ eventsOf file) :
    e.step = .heatmap ∨
    (e.step = .cityBar ∧ df5.hasCol "City" = true) ∨
    (e.step = .severityPie ∧ df5.hasCol "Severity" = true) ∨
    (e.step = .roadPie ∧ df5.hasCol "Road_Condition" = true) ∨
    (e.step = .weatherBar ∧ df5.hasCol "Weather_Condition" = true) ∨
    e.step = .timeHist ∨ e.step = .geoScatter ∨ e.step = .tempDensity ∨
    e.step = .pairplot ∨
    (e.step = .tempBox ∧ df5.hasCol "Severity" = true) ∨
    (e.step = .windViolin ∧ df5.hasCol "Wind_Speed(mph)" = true ∧
      df5.hasCol "Severity" = true) := by
  unfold eventsOf at he
  rw [run_cleaned_ok file df5 h] at he
  unfold plotsPhase at he
  cases ht : timeStep df5 with
  | error er =>
      rw [ht] at he
      dsimp only at he
      rcases List.mem_append.mp he with he | he
      · rcases List.mem_append.mp he with he | he
        · rcases List.mem_append.mp he with he | he
          · rcases List.mem_append.mp he with he | he
            · simp at he; subst he; exact Or.inl rfl
            · exact Or.inr (Or.inl (mem_guardPlot df5 _ _ e he))
          · exact Or.inr (Or.inr (Or.inl (mem_guardPlot df5 _ _ e he)))
        · exact Or.inr (Or.inr (Or.inr (Or.inl (mem_guardPlot df5 _ _ e he))))
      · exact Or.inr (Or.inr (Or.inr (Or.inr (Or.inl (mem_guardPlot df5 _ _ e he)))))
  | ok df6 =>
      rw [ht] at he
      dsimp only at he
      obtain ⟨hloc, _, _, _⟩ := timeStep_ok_inv _ _ ht
      have hsev : df6.hasCol "Severity" = df5.hasCol "Severity" := by
        unfold DataFrame.hasCol
        rw [hloc "Severity" (by decide) (by decide)]
      have hwind : df6.hasCol "Wind_Speed(mph)" = df5.hasCol "Wind_Speed(mph)" := by
        unfold DataFrame.hasCol
        rw [hloc "Wind_Speed(mph)" (by decide) (by decide)]
      rcases List.mem_append.mp he with he | he
      · rcases List.mem_append.mp he with he | he
        · rcases List.mem_append.mp he with he | he
          · rcases List.mem_append.mp he with he | he
            · rcases List.mem_append.mp he with he | he
              · rcases List.mem_append.mp he with he | he
                · simp at he; subst he; exact Or.inl rfl
                · exact Or.inr (Or.inl (mem_guardPlot df5 _ _ e he))
              · exact Or.inr (Or.inr (Or.inl (mem_guardPlot df5 _ _ e he)))
            · exact Or.inr (Or.inr (Or.inr (Or.inl (mem_guardPlot df5 _ _ e he))))
          · exact Or.inr (Or.inr (Or.inr (Or.inr (Or.inl (mem_guardPlot df5 _ _ e he)))))
        · simp at he; subst he
          exact Or.inr (Or.inr (Or.inr (Or.inr (Or.inr (Or.inl rfl)))))
      · rcases plotsAfterTime_events _ _ _ he with h1 | h1 | h1 | h1 | h1
        · exact Or.inr (Or.inr (Or.inr (Or.inr (Or.inr (Or.inr (Or.inl h1))))))
        · exact Or.inr (Or.inr (Or.inr (Or.inr (Or.inr (Or.inr (Or.inr (Or.inl h1)))))))
        · exact Or.inr (Or.inr (Or.inr (Or.inr (Or.inr (Or.inr (Or.inr (Or.inr (Or.inl h1))))))))
        · exact Or.inr (Or.inr (Or.inr (Or.inr (Or.inr (Or.inr (Or.inr (Or.inr (Or.inr
            (Or.inl ⟨h1.1, hsev ▸ h1.2.1⟩)))))))))
        · exact Or.inr (Or.inr (Or.inr (Or.inr (Or.inr (Or.inr (Or.inr (Or.inr (Or.inr
            (Or.inr ⟨h1.1, hwind ▸ h1.2.1, hsev ▸ h1.2.2⟩)))))))))

theorem mem_map_guardPlot (df : DataFrame) (n : String) (st s : PlotStep)
    (hs : s ∈ (guardPlot df n st).map PlotEvent.step) :
    s = st ∧ df.hasCol n = true := by
  rcases List.mem_map.mp hs with ⟨e, he, rfl⟩
  obtain ⟨h1, h2⟩ := mem_guardPlot df n st e he
  exact ⟨h1, h2⟩

theorem getCol_eq_none_of_hasCol_false (df : DataFrame) (n : String)
    (h : df.hasCol n = false) : df.getCol n = none := by
  cases hg : df.getCol n with
  | none => rfl
  | some c =>
      unfold DataFrame.hasCol at h
      rw [hg] at h
      simp at h

/-- If the time step succeeds but `State` is absent, the scatter raises and
the run ends with `KeyError('State')`, the displayed steps stopping at the
time histogram. -/
theorem run_scatter_fail (file df5 df6 : DataFrame) (n : String)
    (h : cleaned file = .ok df5) (ht : timeStep df5 = .ok df6)
    (hsc : scatterCheck df6 = some n) :
    outcomeOf file = .error (.keyError n) ∧
    ∀ s ∈ stepsOf file,
      s = .heatmap ∨ s = .cityBar ∨ s = .severityPie ∨ s = .roadPie ∨
      s = .weatherBar ∨ s = .timeHist := by
  have hrun : run file =
      (([PlotEvent.mk .heatmap (numericColNames (dropnaCols (readCsv file maxRows)))]
        ++ guardPlot df5 "City" .cityBar
        ++ guardPlot df5 "Severity" .severityPie
        ++ guardPlot df5 "Road_Condition" .roadPie
        ++ guardPlot df5 "Weather_Condition" .weatherBar)
        ++ [PlotEvent.mk .timeHist ["Hours"]] ++ [],
       .error (.keyError n)) := by
    rw [run_cleaned_ok file df5 h]
    unfold plotsPhase
    rw [ht]
    dsimp only
    unfold plotsAfterTime
    rw [hsc]
  constructor
  · unfold outcomeOf
    rw [hrun]
  · intro s hs
    unfold stepsOf eventsOf at hs
    rw [hrun] at hs
    simp only [List.map_append, List.mem_append, List.append_nil,
      List.map_nil, List.map_cons, List.mem_singleton, List.not_mem_nil,
      or_false] at hs
    rcases hs with ((((hs | hs) | hs) | hs) | hs) | hs
    · exact Or.inl hs
    · exact Or.inr (Or.inl (mem_map_guardPlot df5 _ _ _ hs).1)
    · exact Or.inr (Or.inr (Or.inl (mem_map_guardPlot df5 _ _ _ hs).1))
    · exact Or.inr (Or.inr (Or.inr (Or.inl (mem_map_guardPlot df5 _ _ _ hs).1)))
    · exact Or.inr (Or.inr (Or.inr (Or.inr (Or.inl
        (mem_map_guardPlot df5 _ _ _ hs).1))))
    · exact Or.inr (Or.inr (Or.inr (Or.inr (Or.inr hs))))

/-- When the cleaned frame has `Start_Time`, `State`, and no numeric
`Airport_Code` snuck into `df_num`, every later step succeeds and the run
returns the final frame. -/
theorem run_ok_of_cols (file df5 : DataFrame)
    (h : cleaned file = .ok df5)
    (hST : df5.hasCol "Start_Time" = true)
    (hState : df5.hasCol "State" = true)
    (hAir : "Airport_Code" ∉ numericColNames (dropnaCols (readCsv file maxRows))) :
    ∃ dfF, outcomeOf file = .ok dfF := by
  obtain ⟨df6, ht⟩ := timeStep_ok_of_hasCol df5 hST
  obtain ⟨hloc, hST6, hH6, hmono6⟩ := timeStep_ok_inv _ _ ht
  obtain ⟨hLng, hLat, hTemp, hmono5⟩ := coerceStep_ok_inv _ _ h
  have hLng6 := hmono6 _ hLng
  have hLat6 := hmono6 _ hLat
  have hTemp6 := hmono6 _ hTemp
  have hState6 : df6.hasCol "State" = true := hmono6 _ hState
  have hsc : scatterCheck df6 = none := by
    unfold scatterCheck
    rw [hLng6, hLat6, hState6]
    rfl
  obtain ⟨cT, hgT⟩ := Option.isSome_iff_exists.mp hTemp6
  have hsamp := sampleRows_ok df6 (min df6.nrows 5000) 42 (min_le_left _ _)
  have hnamesS : ∀ n ∈ numericColNames (dropnaCols (readCsv file maxRows)),
      (DataFrame.mk (min df6.nrows 5000) (df6.cols.map (fun c =>
        ⟨c.name, (fySelect df6.nrows (min df6.nrows 5000) 42).map
          (fun i => c.cells.getD i .na)⟩))).hasCol n = true := by
    intro n hn
    rw [hasCol_sampled]
    have hne : n ∉ ["Airport_Code"] := by
      intro hmem
      simp at hmem
      subst hmem
      exact hAir hn
    have h1 : (dropnaCols (readCsv file maxRows)).hasCol n = true :=
      hasCol_of_mem_numericColNames _ _ hn
    have h2 : ((dropnaCols (readCsv file maxRows)).dropCols
        ["Airport_Code"]).hasCol n = true := by
      rw [hasCol_dropCols _ _ _ hne]
      exact h1
    exact hmono6 _ (hmono5 _ h2)
  refine ⟨df6, ?_⟩
  unfold outcomeOf
  rw [run_cleaned_ok file df5 h]
  unfold plotsPhase
  rw [ht]
  dsimp only
  unfold plotsAfterTime
  rw [hsc]
  dsimp only
  rw [hgT]
  dsimp only
  rw [hsamp]
  dsimp only
  obtain ⟨x, hr⟩ := restrictCols_ok
    ⟨min df6.nrows 5000, df6.cols.map (fun c =>
      ⟨c.name, (fySelect df6.nrows (min df6.nrows 5000) 42).map
        (fun i => c.cells.getD i .na)⟩)⟩
    (numericColNames (dropnaCols (readCsv file maxRows))) hnamesS
  rw [hr]

/-- If the pruning dropped `Temperature(F)`, the coercion block itself
raises a `KeyError` (for one of its three columns) and no figure at all is
shown. -/
theorem cleaned_fails_of_no_temp (file : DataFrame)
    (h : (dropnaCols (readCsv file maxRows)).hasCol "Temperature(F)" = false) :
    ∃ e, cleaned file = .error e := by
  have hX : ((dropnaCols (readCsv file maxRows)).dropCols
      ["Airport_Code"]).hasCol "Temperature(F)" = false := by
    rw [hasCol_dropCols _ _ _ (by decide)]
    exact h
  unfold cleaned coerceStep
  cases h1 : coerceCol ((dropnaCols (readCsv file maxRows)).dropCols
      ["Airport_Code"]) "Start_Lng" with
  | error e => exact ⟨e, rfl⟩
  | ok df1 =>
      dsimp only
      cases h2 : coerceCol df1 "Start_Lat" with
      | error e => exact ⟨e, rfl⟩
      | ok df2 =>
          dsimp only
          obtain ⟨c1, hg1, rfl⟩ := coerceCol_ok_inv _ _ _ h1
          obtain ⟨c2, hg2, rfl⟩ := coerceCol_ok_inv _ _ _ h2
          have hT2 : ((((dropnaCols (readCsv file maxRows)).dropCols
              ["Airport_Code"]).setCol "Start_Lng"
                (c1.cells.map toNumericCell)).setCol "Start_Lat"
                (c2.cells.map toNumericCell)).hasCol "Temperature(F)" = false := by
            rw [hasCol_setCol, if_neg (by decide), hasCol_setCol,
              if_neg (by decide)]
            exact hX
          have hgnone := getCol_eq_none_of_hasCol_false _ _ hT2
          unfold coerceCol
          rw [hgnone]
          exact ⟨.keyError "Temperature(F)", rfl⟩

/-- C5 (amended): the only plotting-phase statement that modifies the
dataframe is the time-of-day step — the final frame of a successful run is
exactly the frame produced by `timeStep` on the cleaned frame, and that step
changes nothing outside the `Start_Time` and `Hours` columns. -/
theorem c5_time_step_writes (file df dfF : DataFrame)
    (h : cleaned file = .ok df) (h2 : outcomeOf file = .ok dfF) :
    timeStep df = .ok dfF ∧
    ∀ m, m ≠ "Start_Time" → m ≠ "Hours" → dfF.getCol m = df.getCol m := by
  obtain ⟨df5, hc, ht, _⟩ := run_ok_shape file dfF h2
  rw [h] at hc
  injection hc with hc
  subst hc
  exact ⟨ht, (timeStep_ok_inv _ _ ht).1⟩

/-- Witness for C5's amended statement on `exNoCity`. -/
theorem c5_witness :
    cleaned exNoCity = .ok (cleanedD exNoCity) ∧
    outcomeOf exNoCity = .ok (timeStepD (cleanedD exNoCity)) ∧
    (timeStep (cleanedD exNoCity) = .ok (timeStepD (cleanedD exNoCity)) ∧
     ∀ m, m ≠ "Start_Time" → m ≠ "Hours" →
       (timeStepD (cleanedD exNoCity)).getCol m = (cleanedD exNoCity).getCol m) :=
  ⟨by decide, by decide,
   c5_time_step_writes exNoCity _ _ (by decide) (by decide)⟩

/-- C5 counterexample: the time-of-day visualization step does modify the
cleaned dataframe — on `exNoCity` the frame has no `Hours` column before the
step and gains one after it, so the plot steps are not all frame-preserving. -/
theorem c5_counterexample :
    (cleaned exNoCity).toOption.isSome = true ∧
    (cleanedD exNoCity).hasCol "Hours" = false ∧
    (timeStep (cleanedD exNoCity)).toOption.isSome = true ∧
    (timeStepD (cleanedD exNoCity)).hasCol "Hours" = true ∧
    ¬ timeStepD (cleanedD exNoCity) = cleanedD exNoCity := by decide

/-- C6 (amended): on every run the displayed plot steps form a subsequence
of the fixed source order (heatmap, city bar, severity pie, road pie,
weather bar, time-of-day histogram, geographic scatter, box plot, violin
plot, density plot, pairplot) — so each step is shown at most once and the
relative order never varies — and whenever anything is shown at all, the
correlation heatmap comes first. -/
theorem c6_plot_order_subsequence (file : DataFrame) :
    List.Sublist (stepsOf file) canonicalOrder ∧
    List.Sublist ((stepsOf file).take 1) [PlotStep.heatmap] :=
  ⟨run_steps_sublist file, run_heatmap_first file⟩

/-- C6 counterexample: a successful run need not produce the whole fixed
sequence — on `exNoCity` the run succeeds, shows the heatmap, but never
shows the hotspot bar chart (its `City` guard fails). -/
theorem c6_counterexample :
    (outcomeOf exNoCity).toOption.isSome = true ∧
    PlotStep.cityBar ∉ stepsOf exNoCity ∧
    PlotStep.heatmap ∈ stepsOf exNoCity := by decide

/-- C7 (amended): the script has eleven `plt.show()` call sites, so a run
displays at most eleven figures — never twelve. -/
theorem c7_at_most_eleven_figures (file : DataFrame) :
    (eventsOf file).length ≤ 11 := by
  have h := List.Sublist.length_le (run_steps_sublist file)
  have hlen : (stepsOf file).length = (eventsOf file).length := by
    unfold stepsOf
    exact List.length_map _ _
  rw [hlen] at h
  simpa [canonicalOrder] using h

/-- C7 counterexample: even with every referenced column present the run
displays eleven figures, not twelve. -/
theorem c7_counterexample :
    (outcomeOf exFull).toOption.isSome = true ∧
    (eventsOf exFull).length = 11 ∧ ¬ (eventsOf exFull).length = 12 := by decide

/-- C8: the correlation heatmap and the pairplot both use exactly the
columns of `df_num`, the set of numeric-dtype columns snapshotted right
after the missing-value pruning and before the `pd.to_numeric` coercions. -/
theorem c8_numeric_snapshot (file dfF : DataFrame)
    (h : outcomeOf file = .ok dfF) :
    plotCols file .heatmap = [numericColNames (dropnaCols (readCsv file maxRows))] ∧
    plotCols file .pairplot = [numericColNames (dropnaCols (readCsv file maxRows))] := by
  obtain ⟨df5, hc, ht, hev⟩ := run_ok_shape file dfF h
  unfold plotCols eventsOf
  rw [hev]
  constructor
  · simp [List.filterMap_append, guardPlot, apply_ite (List.filterMap _)]
  · simp [List.filterMap_append, guardPlot, apply_ite (List.filterMap _)]

/-- Witness for C8 on `exTempStr`, whose `Temperature(F)` column is loaded
as text: the heatmap and pairplot use only `Start_Lng` and `Start_Lat`,
excluding `Temperature(F)` even though the later coercion makes it numeric
(it is numeric-dtype in the cleaned frame). -/
theorem c8_witness :
    outcomeOf exTempStr = .ok (timeStepD (cleanedD exTempStr)) ∧
    (plotCols exTempStr .heatmap =
       [numericColNames (dropnaCols (readCsv exTempStr maxRows))] ∧
     plotCols exTempStr .pairplot =
       [numericColNames (dropnaCols (readCsv exTempStr maxRows))]) ∧
    numericColNames (dropnaCols (readCsv exTempStr maxRows)) =
      ["Start_Lng", "Start_Lat"] ∧
    "Temperature(F)" ∈ numericColNames (cleanedD exTempStr) ∧
    "Temperature(F)" ∉ numericColNames (dropnaCols (readCsv exTempStr maxRows)) :=
  ⟨by decide, c8_numeric_snapshot exTempStr (timeStepD (cleanedD exTempStr)) (by decide),
   by decide, by decide, by decide⟩

/-- C10: the pairplot sample is well defined and deterministic — the sample
size is `min(len(df), 5000)`, `df.sample` succeeds (for frames under 5000
rows the whole frame is sampled), and, the model being a pure function of
the frame and the fixed seed 42, two runs over the same cleaned frame select
the same rows. -/
theorem c10_sample_size_and_determinism (df : DataFrame) :
    (∃ dfS, sampleRows df (min df.nrows 5000) 42 = .ok dfS ∧
      dfS.nrows = min df.nrows 5000) ∧
    (df.nrows < 5000 → min df.nrows 5000 = df.nrows) ∧
    sampleRows df (min df.nrows 5000) 42 =
      sampleRows df (min df.nrows 5000) 42 :=
  ⟨⟨_, sampleRows_ok df (min df.nrows 5000) 42 (min_le_left _ _), rfl⟩,
   fun h => Nat.min_eq_left (Nat.le_of_lt h), rfl⟩

/-- Witness for C10 on the cleaned `exNoCity` frame (2 rows, under 5000). -/
theorem c10_witness :
    (∃ dfS, sampleRows (cleanedD exNoCity)
        (min (cleanedD exNoCity).nrows 5000) 42 = .ok dfS ∧
      dfS.nrows = min (cleanedD exNoCity).nrows 5000) ∧
    min (cleanedD exNoCity).nrows 5000 = (cleanedD exNoCity).nrows :=
  ⟨(c10_sample_size_and_determinism (cleanedD exNoCity)).1,
   (c10_sample_size_and_determinism (cleanedD exNoCity)).2.1 (by decide)⟩

/-- C9: column-absence handling is asymmetric.  Each guarded plot (city
bar, severity pie, road pie, weather bar, box, violin) is silently skipped
when its column is absent, and no guard column is needed for the run to
succeed; but the unguarded accesses make the program raise a `KeyError`
whenever `State` is missing (at the scatter, after which no further plot is
shown) or whenever `Temperature(F)` is missing from the pruned frame (the
unguarded indexing aborts the run before any figure). -/
theorem c9_guard_asymmetry (file : DataFrame) :
    (∀ df5, cleaned file = .ok df5 →
      ((df5.hasCol "City" = false → PlotStep.cityBar ∉ stepsOf file) ∧
       (df5.hasCol "Severity" = false → PlotStep.severityPie ∉ stepsOf file ∧
         PlotStep.tempBox ∉ stepsOf file ∧ PlotStep.windViolin ∉ stepsOf file) ∧
       (df5.hasCol "Road_Condition" = false → PlotStep.roadPie ∉ stepsOf file) ∧
       (df5.hasCol "Weather_Condition" = false →
         PlotStep.weatherBar ∉ stepsOf file) ∧
       (df5.hasCol "Wind_Speed(mph)" = false →
         PlotStep.windViolin ∉ stepsOf file) ∧
       (df5.hasCol "Start_Time" = true → df5.hasCol "State" = true →
         "Airport_Code" ∉ numericColNames (dropnaCols (readCsv file maxRows)) →
         ∃ dfF, outcomeOf file = .ok dfF) ∧
       (df5.hasCol "Start_Time" = true → df5.hasCol "State" = false →
         outcomeOf file = .error (.keyError "State") ∧
         PlotStep.geoScatter ∉ stepsOf file ∧ PlotStep.tempBox ∉ stepsOf file ∧
         PlotStep.windViolin ∉ stepsOf file ∧
         PlotStep.tempDensity ∉ stepsOf file ∧
         PlotStep.pairplot ∉ stepsOf file))) ∧
    ((dropnaCols (readCsv file maxRows)).hasCol "Temperature(F)" = false →
      (∃ e, outcomeOf file = .error e) ∧ stepsOf file = []) := by
  have hstep : ∀ df5, cleaned file = .ok df5 → ∀ s, s ∈ stepsOf file →
      ∃ e ∈ eventsOf file, e.step = s := by
    intro df5 _ s hs
    unfold stepsOf at hs
    rcases List.mem_map.mp hs with ⟨e, he, rfl⟩
    exact ⟨e, he, rfl⟩
  constructor
  · intro df5 h
    refine ⟨?_, ?_, ?_, ?_, ?_, ?_, ?_⟩
    · intro hcity hmem
      obtain ⟨e, he, hst⟩ := hstep df5 h _ hmem
      rcases run_events_decomp file df5 h e he with
        h1 | h1 | h1 | h1 | h1 | h1 | h1 | h1 | h1 | h1 | h1 <;> simp_all
    · intro hsev
      refine ⟨fun hmem => ?_, fun hmem => ?_, fun hmem => ?_⟩ <;>
      · obtain ⟨e, he, hst⟩ := hstep df5 h _ hmem
        rcases run_events_decomp file df5 h e he with
          h1 | h1 | h1 | h1 | h1 | h1 | h1 | h1 | h1 | h1 | h1 <;> simp_all
    · intro hroad hmem
      obtain ⟨e, he, hst⟩ := hstep df5 h _ hmem
      rcases run_events_decomp file df5 h e he with
        h1 | h1 | h1 | h1 | h1 | h1 | h1 | h1 | h1 | h1 | h1 <;> simp_all
    · intro hweather hmem
      obtain ⟨e, he, hst⟩ := hstep df5 h _ hmem
      rcases run_events_decomp file df5 h e he with
        h1 | h1 | h1 | h1 | h1 | h1 | h1 | h1 | h1 | h1 | h1 <;> simp_all
    · intro hwind hmem
      obtain ⟨e, he, hst⟩ := hstep df5 h _ hmem
      rcases run_events_decomp file df5 h e he with
        h1 | h1 | h1 | h1 | h1 | h1 | h1 | h1 | h1 | h1 | h1 <;> simp_all
    · intro hST hState hAir
      exact run_ok_of_cols file df5 h hST hState hAir
    · intro hST hState
      obtain ⟨df6, ht⟩ := timeStep_ok_of_hasCol df5 hST
      obtain ⟨hloc, _, _, hmono6⟩ := timeStep_ok_inv _ _ ht
      obtain ⟨hLng, hLat, _, _⟩ := coerceStep_ok_inv _ _ h
      have hState6 : df6.hasCol "State" = false := by
        unfold DataFrame.hasCol
        rw [hloc "State" (by decide) (by decide)]
        exact hState
      have hsc : scatterCheck df6 = some "State" := by
        unfold scatterCheck
        rw [hmono6 _ hLng, hmono6 _ hLat, hState6]
        rfl
      obtain ⟨hout, hclass⟩ := run_scatter_fail file df5 df6 "State" h ht hsc
      refine ⟨hout, ?_, ?_, ?_, ?_, ?_⟩ <;>
      · intro hmem
        rcases hclass _ hmem with h1 | h1 | h1 | h1 | h1 | h1 <;> simp_all
  · intro hT
    obtain ⟨e, he⟩ := cleaned_fails_of_no_temp file hT
    have hrun := run_cleaned_error file e he
    constructor
    · exact ⟨e, by unfold outcomeOf; rw [hrun]⟩
    · unfold stepsOf eventsOf
      rw [hrun]
      rfl

/-- Witness for C9: a missing `City` guard skips its plot on `exNoCity`
while the run still succeeds; a missing `State` aborts `exNoState` with a
`KeyError` and no later plot; a `Temperature(F)`-less `exNoTemp` raises
before any figure. -/
theorem c9_witness :
    PlotStep.cityBar ∉ stepsOf exNoCity ∧
    (∃ dfF, outcomeOf exNoCity = .ok dfF) ∧
    (outcomeOf exNoState = .error (.keyError "State") ∧
      PlotStep.geoScatter ∉ stepsOf exNoState ∧
      PlotStep.tempBox ∉ stepsOf exNoState ∧
      PlotStep.windViolin ∉ stepsOf exNoState ∧
      PlotStep.tempDensity ∉ stepsOf exNoState ∧
      PlotStep.pairplot ∉ stepsOf exNoState) ∧
    ((∃ e, outcomeOf exNoTemp = .error e) ∧ stepsOf exNoTemp = []) := by
  refine ⟨?_, ?_, ?_, ?_⟩
  · exact ((c9_guard_asymmetry exNoCity).1 (cleanedD exNoCity)
      (by decide)).1 (by decide)
  · exact ((c9_guard_asymmetry exNoCity).1 (cleanedD exNoCity)
      (by decide)).2.2.2.2.2.1 (by decide) (by decide) (by decide)
  · exact ((c9_guard_asymmetry exNoState).1 (cleanedD exNoState)
      (by decide)).2.2.2.2.2.2 (by decide) (by decide)
  · exact (c9_guard_asymmetry exNoTemp).2 (by decide)

/-- C1: after the missing-value pruning (`df.dropna(thresh=len(df)*(1-0.3),
axis=1)`), a column is retained iff its non-missing count is at least
`0.7 * len(df)`; equivalently exactly the columns with strictly more than
30% missing values are dropped, and the row count is unchanged. -/
theorem c1_dropna_threshold (df : DataFrame) (hwf : df.WF) :
    (dropnaCols df).nrows = df.nrows ∧
    (∀ c, c ∈ (dropnaCols df).cols ↔
      c ∈ df.cols ∧ 10 * nonNACount c.cells ≥ 7 * df.nrows) ∧
    (∀ c ∈ df.cols,
      (c ∉ (dropnaCols df).cols ↔ 10 * naCount c.cells > 3 * df.nrows)) := by
  refine ⟨rfl, fun c => ?_, fun c hc => ?_⟩
  · simp [dropnaCols, List.mem_filter, ge_iff_le]
  · have hlen := hwf c hc
    have hsum := nonNACount_add_naCount c.cells
    constructor
    · intro hnot
      have hle : ¬ (7 * df.nrows ≤ 10 * nonNACount c.cells) := by
        intro hle
        exact hnot (by simp [dropnaCols, List.mem_filter, hc, hle])
      omega
    · intro hgt hmem
      have hle : 7 * df.nrows ≤ 10 * nonNACount c.cells := by
        simpa [dropnaCols, List.mem_filter, hc] using hmem
      omega

/-- Witness for C1 on `exC1`: the column with exactly 30% missing values is
kept, the one with 40% is dropped, and the row count is preserved. -/
theorem c1_witness :
    exC1.WF ∧
    ((dropnaCols exC1).nrows = exC1.nrows ∧
     (∀ c, c ∈ (dropnaCols exC1).cols ↔
       c ∈ exC1.cols ∧ 10 * nonNACount c.cells ≥ 7 * exC1.nrows) ∧
     (∀ c ∈ exC1.cols,
       (c ∉ (dropnaCols exC1).cols ↔ 10 * naCount c.cells > 3 * exC1.nrows))) ∧
    (dropnaCols exC1).cols.map Col.name = ["Keep30"] :=
  ⟨by decide, c1_dropna_threshold exC1 (by decide), by decide⟩

/-- C2: the load is bounded — `pd.read_csv(..., nrows=100000)` yields a
dataframe of at most 100000 rows, and every column has at most 100000
cells, whatever the CSV file holds. -/
theorem c2_load_bounded (file : DataFrame) :
    (readCsv file maxRows).nrows ≤ 100000 ∧
    ∀ c ∈ (readCsv file maxRows).cols, c.cells.length ≤ 100000 := by
  constructor
  · exact min_le_right file.nrows maxRows
  · intro c hc
    simp only [readCsv, List.mem_map] at hc
    obtain ⟨d, _, rfl⟩ := hc
    simp [List.length_take, maxRows]

/-- C3: `pd.to_numeric(·, errors='coerce')` on `Start_Lng`, `Start_Lat`
and `Temperature(F)`: when the three columns are present the step raises
nothing, each cell that parses as a number becomes that number, each
malformed cell becomes NaN, and all other columns are untouched. -/
theorem c3_to_numeric_coerce (df : DataFrame)
    (h1 : df.hasCol "Start_Lng" = true) (h2 : df.hasCol "Start_Lat" = true)
    (h3 : df.hasCol "Temperature(F)" = true) :
    (∃ df', coerceStep df = .ok df' ∧
      (∀ m, m ≠ "Start_Lng" → m ≠ "Start_Lat" → m ≠ "Temperature(F)" →
        df'.getCol m = df.getCol m) ∧
      (∀ c, df.getCol "Start_Lng" = some c →
        df'.getCol "Start_Lng" = some ⟨"Start_Lng", c.cells.map toNumericCell⟩) ∧
      (∀ c, df.getCol "Start_Lat" = some c →
        df'.getCol "Start_Lat" = some ⟨"Start_Lat", c.cells.map toNumericCell⟩) ∧
      (∀ c, df.getCol "Temperature(F)" = some c →
        df'.getCol "Temperature(F)" =
          some ⟨"Temperature(F)", c.cells.map toNumericCell⟩)) ∧
    (∀ s q, parseRat s = some q → toNumericCell (.str s) = .num q) ∧
    (∀ s, parseRat s = none → toNumericCell (.str s) = .na) ∧
    (∀ q, toNumericCell (.num q) = .num q) ∧
    toNumericCell Cell.na = Cell.na := by
  rw [DataFrame.hasCol, Option.isSome_iff_exists] at h1 h2 h3
  obtain ⟨c1, hg1⟩ := h1
  have hc1 : coerceCol df "Start_Lng" =
      .ok (df.setCol "Start_Lng" (c1.cells.map toNumericCell)) := by
    simp [coerceCol, hg1]
  set df1 := df.setCol "Start_Lng" (c1.cells.map toNumericCell) with hdf1
  obtain ⟨c2, hg2⟩ := h2
  have hg2' : df1.getCol "Start_Lat" = some c2 := by
    rw [hdf1, getCol_setCol_ne df _ _ _ (by decide)]; exact hg2
  have hc2 : coerceCol df1 "Start_Lat" =
      .ok (df1.setCol "Start_Lat" (c2.cells.map toNumericCell)) := by
    simp [coerceCol, hg2']
  set df2 := df1.setCol "Start_Lat" (c2.cells.map toNumericCell) with hdf2
  obtain ⟨c3, hg3⟩ := h3
  have hg3' : df2.getCol "Temperature(F)" = some c3 := by
    rw [hdf2, getCol_setCol_ne df1 _ _ _ (by decide), hdf1,
      getCol_setCol_ne df _ _ _ (by decide)]
    exact hg3
  have hc3 : coerceCol df2 "Temperature(F)" =
      .ok (df2.setCol "Temperature(F)" (c3.cells.map toNumericCell)) := by
    simp [coerceCol, hg3']
  set df3 := df2.setCol "Temperature(F)" (c3.cells.map toNumericCell) with hdf3
  refine ⟨⟨df3, ?_, ?_, ?_, ?_, ?_⟩, ?_, ?_, ?_, rfl⟩
  · simp [coerceStep, hc1, hc2, hc3]
  · intro m hm1 hm2 hm3
    rw [hdf3, getCol_setCol_ne df2 _ _ _ hm3, hdf2,
      getCol_setCol_ne df1 _ _ _ hm2, hdf1, getCol_setCol_ne df _ _ _ hm1]
  · intro c hc
    rw [hg1] at hc
    cases hc
    rw [hdf3, getCol_setCol_ne df2 _ _ _ (by decide), hdf2,
      getCol_setCol_ne df1 _ _ _ (by decide), hdf1, getCol_setCol_self]
  · intro c hc
    rw [hg2] at hc
    cases hc
    rw [hdf3, getCol_setCol_ne df2 _ _ _ (by decide), hdf2, getCol_setCol_self]
  · intro c hc
    rw [hg3] at hc
    cases hc
    rw [hdf3, getCol_setCol_self]
  · intro s q hpq
    simp [toNumericCell, hpq]
  · intro s hpn
    simp [toNumericCell, hpn]
  · intro q
    rfl

/-- Witness for C3 on `exFull`: the three columns are present and the
coercion behaves as stated. -/
theorem c3_witness :
    exFull.hasCol "Start_Lng" = true ∧ exFull.hasCol "Start_Lat" = true ∧
    exFull.hasCol "Temperature(F)" = true ∧
    ((∃ df', coerceStep exFull = .ok df' ∧
      (∀ m, m ≠ "Start_Lng" → m ≠ "Start_Lat" → m ≠ "Temperature(F)" →
        df'.getCol m = exFull.getCol m) ∧
      (∀ c, exFull.getCol "Start_Lng" = some c →
        df'.getCol "Start_Lng" = some ⟨"Start_Lng", c.cells.map toNumericCell⟩) ∧
      (∀ c, exFull.getCol "Start_Lat" = some c →
        df'.getCol "Start_Lat" = some ⟨"Start_Lat", c.cells.map toNumericCell⟩) ∧
      (∀ c, exFull.getCol "Temperature(F)" = some c →
        df'.getCol "Temperature(F)" =
          some ⟨"Temperature(F)", c.cells.map toNumericCell⟩)) ∧
    (∀ s q, parseRat s = some q → toNumericCell (.str s) = .num q) ∧
    (∀ s, parseRat s = none → toNumericCell (.str s) = .na) ∧
    (∀ q, toNumericCell (.num q) = .num q) ∧
    toNumericCell Cell.na = Cell.na) :=
  ⟨by decide, by decide, by decide,
   c3_to_numeric_coerce exFull (by decide) (by decide) (by decide)⟩

/-- C4: `pd.to_datetime(df['Start_Time'], errors='coerce')` followed by
`.dt.hour`: when `Start_Time` is present the step raises nothing,
parseable entries become datetimes and unparseable ones become missing,
and the derived `Hours` column holds, rowwise, the hour component of the
parsed timestamp — a number below 24 wherever parsing succeeded and a
missing value wherever it failed. -/
theorem c4_datetime_hours (df : DataFrame) (c : Col)
    (h : df.getCol "Start_Time" = some c) :
    (∃ df', timeStep df = .ok df' ∧
      df'.getCol "Start_Time" = some ⟨"Start_Time", c.cells.map toDatetimeCell⟩ ∧
      df'.getCol "Hours" =
        some ⟨"Hours", (c.cells.map toDatetimeCell).map hourCell⟩) ∧
    (∀ s t, parseDT s = some t → toDatetimeCell (.str s) = .dt t) ∧
    (∀ s, parseDT s = none → toDatetimeCell (.str s) = .na) ∧
    toDatetimeCell Cell.na = Cell.na ∧
    (∀ t, ∃ n : ℕ, n < 24 ∧ hourCell (.dt t) = .num (n : ℚ)) ∧
    hourCell Cell.na = Cell.na := by
  refine ⟨?_, ?_, ?_, rfl, ?_, rfl⟩
  · refine ⟨(df.setCol "Start_Time" (c.cells.map toDatetimeCell)).setCol
      "Hours" ((c.cells.map toDatetimeCell).map hourCell), ?_, ?_, ?_⟩
    · simp [timeStep, h]
    · rw [getCol_setCol_ne _ _ _ _ (by decide), getCol_setCol_self]
    · rw [getCol_setCol_self]
  · intro s t hst
    simp [toDatetimeCell, hst]
  · intro s hsn
    simp [toDatetimeCell, hsn]
  · intro t
    refine ⟨(t % 86400) / 3600, ?_, rfl⟩
    have hm : t % 86400 < 86400 := Nat.mod_lt t (by norm_num)
    omega

/-- Witness for C4 on `exFull`: its `Start_Time` column has one parseable
and one malformed entry. -/
theorem c4_witness :
    exFull.getCol "Start_Time" =
      some ⟨"Start_Time", [.str "2023-01-02 08:30:00", .str "bad"]⟩ ∧
    ((∃ df', timeStep exFull = .ok df' ∧
      df'.getCol "Start_Time" =
        some ⟨"Start_Time",
          ([Cell.str "2023-01-02 08:30:00", Cell.str "bad"]).map toDatetimeCell⟩ ∧
      df'.getCol "Hours" =
        some ⟨"Hours",
          (([Cell.str "2023-01-02 08:30:00", Cell.str "bad"]).map
            toDatetimeCell).map hourCell⟩) ∧
    (∀ s t, parseDT s = some t → toDatetimeCell (.str s) = .dt t) ∧
    (∀ s, parseDT s = none → toDatetimeCell (.str s) = .na) ∧
    toDatetimeCell Cell.na = Cell.na ∧
    (∀ t, ∃ n : ℕ, n < 24 ∧ hourCell (.dt t) = .num (n : ℚ)) ∧
    hourCell Cell.na = Cell.na) ∧
    ([Cell.str "2023-01-02 08:30:00", Cell.str "bad"].map
      (fun x => hourCell (toDatetimeCell x))) = [.num 8, .na] :=
  ⟨by decide,
   c4_datetime_hours exFull
     ⟨"Start_Time", [.str "2023-01-02 08:30:00", .str "bad"]⟩ (by decide),
   by decide⟩

end Task4
